import Mathlib

/-!
Shallow embedding of the MarketPulse Commerce backend (FastAPI/SQLAlchemy)
and proofs about the behaviour of its route handlers, services and helpers.

Monetary and numeric `Decimal` values are embedded as rationals (`ℚ`);
database tables are lists of row structures; fallible handlers return
`Except Fault`; the external search engine and the JWT codec are modelled
by their interface contracts where noted.
-/

namespace MarketPulse

/-- Domain faults and framework HTTP exceptions, as raised by the route
layer (`app/utils/exceptions.py`) and by FastAPI security dependencies. -/
inductive Fault where
  | validation (detail : String)
  | notFound (detail : String)
  | unauthorized (detail : String)
  | forbidden (detail : String)
  | http (statusCode : Nat) (detail : String)
  deriving DecidableEq, Repr

/-! ## Shared utilities (`app/utils/helpers.py`) -/

/-- Embeds `calculate_shipping` from `app/utils/helpers.py`: base cost 5.99;
`None` weight returns the base cost immediately; otherwise a weight-band
cost is added and the sum is scaled by a distance multiplier looked up
with default 1.0. -/
def calculate_shipping (weight : Option ℚ) (distance : String) : ℚ :=
  let base_cost : ℚ := 599/100
  match weight with
  | none => base_cost
  | some w =>
    let weight_cost : ℚ :=
      if w ≤ 1 then 0
      else if w ≤ 5 then 299/100
      else if w ≤ 10 then 599/100
      else w * (99/100)
    let distance_multiplier : ℚ :=
      if distance = "local" then 1
      else if distance = "standard" then 12/10
      else if distance = "express" then 2
      else if distance = "international" then 3
      else 1
    (base_cost + weight_cost) * distance_multiplier

/-- The distance categories named by the specification together with the
multipliers it assigns to them. -/
def distance_multipliers : List (String × ℚ) :=
  [("local", 1), ("standard", 12/10), ("express", 2), ("international", 3)]

/-- Written from the specification's words (amended at the absent-weight
case, which the code settles before the multiplier is applied): shipping is
(5.99 + weight band cost) times the distance multiplier, with bands
at most 1 adding 0, at most 5 adding 2.99, at most 10 adding 5.99, above 10
adding weight times 0.99; an absent weight yields flat 5.99 regardless of
the distance category. -/
def shipping_spec (weight : Option ℚ) (mult : ℚ) : ℚ :=
  match weight with
  | none => 599/100
  | some w =>
    let band : ℚ :=
      if w ≤ 1 then 0
      else if w ≤ 5 then 299/100
      else if w ≤ 10 then 599/100
      else w * (99/100)
    (599/100 + band) * mult

/-! ## Authentication service (`app/services/auth_service.py`)

The JWT codec (`python-jose`) is an excluded third-party dependency; it is
modelled by its contract: encoding packages a claims payload under a
signing key, decoding succeeds exactly when the supplied key matches the
signing key and the expiry lies in the future, and raises `JWTError`
otherwise (a malformed input string always raises). -/

/-- Claims payload carried by the tokens this service mints: subject,
optional user id, expiry instant (seconds), and the `type` claim. -/
structure JwtPayload where
  sub : Option String
  user_id : Option String
  exp : ℤ
  type : String
  deriving DecidableEq, Repr

/-- A wire-form token: either a well-formed JWT (payload signed under a
key) or a malformed string that no decode accepts. -/
inductive TokenStr where
  | signed (payload : JwtPayload) (key : String)
  | malformed (raw : String)
  deriving DecidableEq, Repr

/-- Contract of the excluded JWT codec's decode: the key must match and the
token must not be expired, otherwise `JWTError` (modelled as `Except`). -/
def jwt_decode (token : TokenStr) (key : String) (now : ℤ) : Except Unit JwtPayload :=
  match token with
  | .malformed _ => .error ()
  | .signed payload sigKey =>
    if sigKey = key ∧ now < payload.exp then .ok payload else .error ()

/-- The data dict passed to access/refresh token creation by the login and
refresh handlers: subject email and user id. -/
structure TokenData where
  sub : Option String
  user_id : Option String
  deriving DecidableEq, Repr

/-- Process-wide settings the authentication service reads from
configuration (`app/config.py`). -/
structure AuthConfig where
  secret_key : String
  access_token_expire_minutes : ℤ
  refresh_token_expire_days : ℤ
  deriving DecidableEq, Repr

namespace AuthService

/-- Embeds `AuthService.create_access_token`: copies the data, sets the
expiry and the `type` claim to `"access"`, signs with the secret key. -/
def create_access_token (cfg : AuthConfig) (data : TokenData) (now : ℤ) : TokenStr :=
  .signed { sub := data.sub, user_id := data.user_id,
            exp := now + cfg.access_token_expire_minutes * 60,
            type := "access" } cfg.secret_key

/-- Embeds `AuthService.create_refresh_token`. -/
def create_refresh_token (cfg : AuthConfig) (data : TokenData) (now : ℤ) : TokenStr :=
  .signed { sub := data.sub, user_id := data.user_id,
            exp := now + cfg.refresh_token_expire_days * 86400,
            type := "refresh" } cfg.secret_key

/-- Embeds `AuthService.create_email_verification_token` (24-hour expiry,
subject only). -/
def create_email_verification_token (cfg : AuthConfig) (email : String) (now : ℤ) : TokenStr :=
  .signed { sub := some email, user_id := none,
            exp := now + 24 * 3600,
            type := "email_verification" } cfg.secret_key

/-- Embeds `AuthService.create_password_reset_token` (1-hour expiry,
subject only). -/
def create_password_reset_token (cfg : AuthConfig) (email : String) (now : ℤ) : TokenStr :=
  .signed { sub := some email, user_id := none,
            exp := now + 3600,
            type := "password_reset" } cfg.secret_key

/-- Embeds `AuthService.verify_token`: decode under the secret key; a
`JWTError` (signature mismatch, expiry, malformed input) yields `none`, a
`type` claim different from the requested one yields `none`; otherwise the
payload is returned. Total by construction — the `except JWTError` branch
is the `Except.error` case. -/
def verify_token (cfg : AuthConfig) (token : TokenStr) (token_type : String) (now : ℤ) :
    Option JwtPayload :=
  match jwt_decode token cfg.secret_key now with
  | .error _ => none
  | .ok payload => if payload.type ≠ token_type then none else some payload

end AuthService

/-- The four token purposes the service mints. -/
inductive TokenPurpose where
  | access
  | refresh
  | email_verification
  | password_reset
  deriving DecidableEq, Repr

/-- The `type` claim string each purpose writes into its tokens. -/
def TokenPurpose.claim : TokenPurpose → String
  | .access => "access"
  | .refresh => "refresh"
  | .email_verification => "email_verification"
  | .password_reset => "password_reset"

/-- Dispatcher over the four minting functions of the service, used to
quantify over token purposes; each branch is the corresponding source
function unchanged. -/
def mint_token (cfg : AuthConfig) (purpose : TokenPurpose) (data : TokenData)
    (email : String) (now : ℤ) : TokenStr :=
  match purpose with
  | .access => AuthService.create_access_token cfg data now
  | .refresh => AuthService.create_refresh_token cfg data now
  | .email_verification => AuthService.create_email_verification_token cfg email now
  | .password_reset => AuthService.create_password_reset_token cfg email now

/-! ## Data model rows (`app/models/user.py`, `app/models/product.py`) -/

/-- A `users` table row (identifier rendered as a string). -/
structure UserRow where
  id : String
  email : String
  password_hash : String
  first_name : String
  last_name : String
  phone : Option String
  is_active : Bool
  is_verified : Bool
  is_admin : Bool
  deriving DecidableEq, Repr

/-- An `addresses` table row. -/
structure AddressRow where
  id : String
  user_id : String
  street : String
  city : String
  state : String
  country : String
  postal_code : String
  is_default : Bool
  deriving DecidableEq, Repr

/-- A `products` table row; timestamps are instants (seconds). -/
structure ProductRow where
  id : String
  name : String
  slug : String
  description : Option String
  short_description : Option String
  category_id : String
  price : ℚ
  cost_price : Option ℚ
  sku : String
  stock_quantity : ℤ
  weight : Option ℚ
  dimensions : Option String
  is_active : Bool
  is_featured : Bool
  is_digital : Bool
  meta_title : Option String
  meta_description : Option String
  view_count : ℤ
  rating_average : ℚ
  rating_count : ℤ
  created_at : ℤ
  updated_at : ℤ
  deriving DecidableEq, Repr

/-- A `product_reviews` table row. -/
structure ReviewRow where
  id : String
  product_id : String
  user_id : String
  rating : ℤ
  title : Option String
  comment : Option String
  is_verified_purchase : Bool
  is_approved : Bool
  deriving DecidableEq, Repr

/-! ## Database lookups used by the service layer -/

/-- Embeds `AuthService.get_user_by_email`: first row whose email matches. -/
def get_user_by_email (db : List UserRow) (email : String) : Option UserRow :=
  db.find? (fun u => u.email = email)

namespace AuthService

/-- Embeds `AuthService.get_current_user`: verify the bearer string as an
access token, extract the subject (a missing or empty subject yields no
user), then fetch the user by email; any step failing yields `none`. -/
def get_current_user (cfg : AuthConfig) (db : List UserRow) (token : TokenStr) (now : ℤ) :
    Option UserRow :=
  match verify_token cfg token "access" now with
  | none => none
  | some payload =>
    match payload.sub with
    | none => none
    | some email => if email = "" then none else get_user_by_email db email

end AuthService

/-! ## Identity-resolution dependency layer (`app/dependencies.py`) -/

/-- Parsed `Authorization` header: a scheme and the bearer token string. -/
structure AuthorizationHeader where
  scheme : String
  credentials : TokenStr
  deriving Repr

/-- ASCII lower-casing of a scheme string (Python's `str.lower()` on the
authorization scheme). -/
def ascii_lower (s : String) : String :=
  String.mk (s.data.map Char.toLower)

/-- Modelled contract of the FastAPI `HTTPBearer` security dependency
instantiated at `security = HTTPBearer()` in `app/dependencies.py` (its
`auto_error` parameter defaults to true): with no `Authorization` header,
or a scheme other than bearer, it raises HTTP 403 when `auto_error` is
true and yields no credentials when it is false; otherwise it yields the
parsed credentials. -/
def httpBearer (auto_error : Bool) (header : Option AuthorizationHeader) :
    Except Fault (Option AuthorizationHeader) :=
  match header with
  | none =>
    if auto_error then .error (.http 403 "Not authenticated") else .ok none
  | some h =>
    if ascii_lower h.scheme ≠ "bearer" then
      (if auto_error then .error (.http 403 "Invalid authentication credentials") else .ok none)
    else .ok (some h)

/-- Embeds the full dependency resolution of `get_optional_current_user`
as the framework executes it for a request: the `security = HTTPBearer()`
sub-dependency runs first (with its default `auto_error = true`); only if
it yields are the inner body's `if not credentials` guard and the
`try/except`-wrapped `AuthService.get_current_user` call reached (the
embedded call is total, so the swallowed-exception branch yields the same
`none` as a failed resolution). -/
def get_optional_current_user (cfg : AuthConfig) (db : List UserRow)
    (header : Option AuthorizationHeader) (now : ℤ) : Except Fault (Option UserRow) :=
  match httpBearer true header with
  | .error f => .error f
  | .ok none => .ok none
  | .ok (some creds) => .ok (AuthService.get_current_user cfg db creds.credentials now)

/-! ## Product listing (`app/api/products.py`, `get_products`) -/

/-- The query parameters of `get_products` that shape the filtered set. -/
structure ProductFilters where
  category_id : Option String
  q : Option String
  min_price : Option ℚ
  max_price : Option ℚ
  in_stock_only : Bool
  featured_only : Bool
  deriving Repr

/-- A list occurs contiguously inside another (substring search on
character lists). -/
def contains_sublist (pat s : List Char) : Bool :=
  s.tails.any (fun t => pat.isPrefixOf t)

/-- SQL `ILIKE '%pat%'` on a nullable column: case-insensitive substring
match, never matched on NULL. -/
def ilike_contains (column : Option String) (pat : String) : Bool :=
  match column with
  | none => false
  | some s => contains_sublist (ascii_lower pat).data (ascii_lower s).data

/-- One product satisfies the `get_products` filter conjunction
(`category_id`, truthy `q` over name/description/short_description,
`min_price`/`max_price`, `in_stock_only`, `featured_only`). -/
def product_matches (f : ProductFilters) (p : ProductRow) : Bool :=
  (match f.category_id with | none => true | some c => p.category_id = c) &&
  (match f.q with
   | none => true
   | some q =>
     if q = "" then true
     else ilike_contains (some p.name) q || ilike_contains p.description q ||
          ilike_contains p.short_description q) &&
  (match f.min_price with | none => true | some m => m ≤ p.price) &&
  (match f.max_price with | none => true | some m => p.price ≤ m) &&
  (!f.in_stock_only || decide (0 < p.stock_quantity)) &&
  (!f.featured_only || p.is_featured)

/-- The filtered set of the listing query: active products satisfying
every supplied filter. -/
def get_products_matching (db : List ProductRow) (f : ProductFilters) : List ProductRow :=
  db.filter (fun p => p.is_active && product_matches f p)

/-- Embeds the `total_count` computation of `get_products`:
`(await session.execute(count_query)).scalar() or 1` — the count of the
filtered set, except that a falsy count (zero) becomes 1. -/
def get_products_total_count (db : List ProductRow) (f : ProductFilters) : ℕ :=
  let n := (get_products_matching db f).length
  if n = 0 then 1 else n

/-- Embeds the `total_pages` computation of `get_products`:
`(total_count + page_size - 1) // page_size`. -/
def get_products_total_pages (db : List ProductRow) (f : ProductFilters)
    (page_size : ℕ) : ℕ :=
  (get_products_total_count db f + page_size - 1) / page_size

/-- Filters with every optional filter absent and both flags off. -/
def no_filters : ProductFilters :=
  { category_id := none, q := none, min_price := none, max_price := none,
    in_stock_only := false, featured_only := false }

/-! ## Address routes (`app/api/users.py`) -/

/-- `AddressCreate` request body (every field required, flag defaulted by
the schema). -/
structure AddressCreatePayload where
  street : String
  city : String
  state : String
  country : String
  postal_code : String
  is_default : Bool
  deriving Repr

/-- `AddressUpdate` request body: only supplied fields are applied. -/
structure AddressUpdatePayload where
  street : Option String
  city : Option String
  state : Option String
  country : Option String
  postal_code : Option String
  is_default : Option Bool
  deriving Repr

/-- Mutates the first row satisfying the predicate, as the ORM's
`scalar_one_or_none` fetch-then-mutate does for a unique row. -/
def update_first {α : Type} (db : List α) (p : α → Bool) (f : α → α) : List α :=
  match db with
  | [] => []
  | a :: rest => if p a then f a :: rest else a :: update_first rest p f

/-- Embeds `create_address`: when the new address is marked default, every
existing default address of the user is flipped to false first; then the
new row is inserted with the supplied fields. -/
def create_address (db : List AddressRow) (uid : String) (new_id : String)
    (data : AddressCreatePayload) : List AddressRow :=
  (if data.is_default then
    db.map (fun a =>
      if a.user_id = uid && a.is_default then { a with is_default := false } else a)
  else db) ++
  [{ id := new_id, user_id := uid, street := data.street, city := data.city,
     state := data.state, country := data.country,
     postal_code := data.postal_code, is_default := data.is_default }]

/-- Applies an `AddressUpdate`'s supplied fields onto a row
(`setattr` per supplied key). -/
def apply_address_update (a : AddressRow) (d : AddressUpdatePayload) : AddressRow :=
  { a with street := d.street.getD a.street,
           city := d.city.getD a.city,
           state := d.state.getD a.state,
           country := d.country.getD a.country,
           postal_code := d.postal_code.getD a.postal_code,
           is_default := d.is_default.getD a.is_default }

/-- Embeds `update_address`: the address is fetched scoped to the
requesting user (no change on not-found); when the update's supplied
`is_default` is truthy, every other default address of the user is flipped
to false first; then the supplied fields are applied to the fetched row. -/
def update_address (db : List AddressRow) (uid : String) (aid : String)
    (d : AddressUpdatePayload) : List AddressRow :=
  match db.find? (fun a => a.id = aid && a.user_id = uid) with
  | none => db
  | some _ =>
    update_first
      (if d.is_default = some true then
        db.map (fun a =>
          if a.user_id = uid && a.is_default && a.id ≠ aid then
            { a with is_default := false }
          else a)
      else db)
      (fun a => a.id = aid && a.user_id = uid)
      (fun a => apply_address_update a d)

/-- A create/update address operation, the two mutations the invariant
claim ranges over. -/
inductive AddressOp where
  | create (uid new_id : String) (data : AddressCreatePayload)
  | update (uid aid : String) (data : AddressUpdatePayload)

/-- Applies one address operation to the table. -/
def apply_address_op (db : List AddressRow) : AddressOp → List AddressRow
  | .create uid new_id data => create_address db uid new_id data
  | .update uid aid data => update_address db uid aid data

/-- Number of default-flagged addresses a user owns. -/
def defaults_count (db : List AddressRow) (uid : String) : ℕ :=
  db.countP (fun a => a.user_id = uid && a.is_default)

/-- The invariant: at most one address per user is flagged default. -/
def at_most_one_default (db : List AddressRow) (uid : String) : Prop :=
  defaults_count db uid ≤ 1

/-- Primary keys are unique in a table. -/
def wf_ids (db : List AddressRow) : Prop :=
  (db.map (fun a => a.id)).Nodup

/-- A sequence of address operations is well-formed against a starting
table when every create inserts a fresh primary key (the database assigns
random never-reused identifiers). -/
def address_ops_wf : List AddressRow → List AddressOp → Prop
  | _, [] => True
  | db, op :: rest =>
    (match op with
     | .create _ new_id _ => new_id ∉ db.map (fun a => a.id)
     | .update _ _ _ => True) ∧ address_ops_wf (apply_address_op db op) rest

/-! ## Single product fetch and soft delete (`app/api/products.py`) -/

/-- Embeds `get_product`: only an active product with the id is visible
(not-found otherwise); on success the view counter is incremented and the
product returned. -/
def get_product (db : List ProductRow) (pid : String) :
    Except Fault (ProductRow × List ProductRow) :=
  match db.find? (fun p => p.id = pid && p.is_active) with
  | none => .error (.notFound "Product not found")
  | some p =>
    let p' := { p with view_count := p.view_count + 1 }
    .ok (p', update_first db (fun q => q.id = pid && q.is_active) (fun q => { q with view_count := q.view_count + 1 }))

/-- Embeds `delete_product` (admin route, identity already resolved): the
product is fetched by id regardless of active state (not-found if absent),
its active flag is cleared and — through the ORM's automatic
`onupdate` — its update timestamp refreshed; the row is never removed and
the search-index removal touches no table. -/
def delete_product (db : List ProductRow) (pid : String) (now : ℤ) :
    Except Fault (List ProductRow) :=
  match db.find? (fun p => p.id = pid) with
  | none => .error (.notFound "Product not found")
  | some _ =>
    .ok (update_first db (fun p => p.id = pid)
      (fun p => { p with is_active := false, updated_at := now }))

/-! ## Review creation (`app/api/products.py`, `create_product_review`) -/

/-- Products table plus reviews table, the state the review routes act on. -/
structure CatalogState where
  products : List ProductRow
  reviews : List ReviewRow
  deriving Repr

/-- Ratings of all currently approved reviews of one product. -/
def approved_ratings (reviews : List ReviewRow) (pid : String) : List ℤ :=
  (reviews.filter (fun r => r.product_id = pid && r.is_approved)).map (fun r => r.rating)

/-- Embeds `create_product_review`: the product must exist and be active;
the acting user must not already have a review on it; the review row is
inserted with `is_verified_purchase` false and the schema-default
`is_approved` true; then the product row's rating average and count are
recomputed as the SQL `AVG`/`COUNT` over the currently approved reviews of
that product and persisted. -/
def create_product_review (st : CatalogState) (pid uid new_id : String) (rating : ℤ)
    (title comment : Option String) : Except Fault CatalogState :=
  match st.products.find? (fun p => p.id = pid) with
  | none => .error (.notFound "Product not found")
  | some p =>
    if ¬ p.is_active then .error (.notFound "Product not found")
    else if (st.reviews.find? (fun r => r.product_id = pid && r.user_id = uid)).isSome then
      .error (.validation "You have already reviewed this product")
    else
      let review : ReviewRow :=
        { id := new_id, product_id := pid, user_id := uid, rating := rating,
          title := title, comment := comment,
          is_verified_purchase := false, is_approved := true }
      let reviews' := st.reviews ++ [review]
      let ratings := approved_ratings reviews' pid
      let avg : ℚ := (ratings.map (fun r => (r : ℚ))).sum / (ratings.length : ℚ)
      let products' := update_first st.products (fun q => q.id = pid)
        (fun q => { q with rating_average := avg, rating_count := (ratings.length : ℤ) })
      .ok { products := products', reviews := reviews' }

/-! ## Forgot password (`app/api/auth.py`, `forgot_password`) -/

/-- An HTTP response as observed by the client: status code and body. -/
structure HttpResponse where
  status : ℕ
  body : String
  deriving DecidableEq, Repr

/-- A background email task scheduled by a handler (dispatched after the
response is returned, never observable in it). -/
inductive EmailTask where
  | passwordReset (recipient : String) (first_name : String) (token : TokenStr)
  deriving Repr

/-- Embeds `forgot_password`: look the email up; only when a matching
active user exists is a reset token minted and a reset email scheduled in
the background; the handler then returns the one generic success response
on every path (status 204 from the route decorator). -/
def forgot_password (cfg : AuthConfig) (db : List UserRow) (email : String) (now : ℤ) :
    HttpResponse × List EmailTask :=
  let user := get_user_by_email db email
  let tasks :=
    match user with
    | some u =>
      if u.is_active then
        [EmailTask.passwordReset u.email u.first_name
          (AuthService.create_password_reset_token cfg u.email now)]
      else []
    | none => []
  ({ status := 204, body := "If the email exists, a password reset link has been sent" },
   tasks)

/-! ## Search service (`app/services/search_service.py`) -/

/-- A hit document returned by the search engine for the product index. -/
structure EngineHit where
  id : String
  name : String
  slug : Option String
  short_description : Option String
  price : ℚ
  sku : String
  stock_quantity : ℤ
  is_featured : Bool
  rating_average : ℚ
  rating_count : ℤ
  category_name : String
  deriving Repr

/-- A successful engine response: hits, exact total, and the two
aggregation bucket lists. -/
structure EngineResponse where
  hits : List EngineHit
  total : ℕ
  category_buckets : List (String × ℕ)
  price_range_buckets : List (String × String × ℕ)
  deriving Repr

/-- Outcome of the `es.search` call: a response, or any engine failure
(network error, missing index, malformed reply — everything the broad
`except` catches). -/
inductive EngineOutcome where
  | ok (r : EngineResponse)
  | failure (msg : String)
  deriving Repr

/-- The `search_params` dict built by the search route. -/
structure SearchParams where
  query : Option String
  category_id : Option String
  min_price : Option ℚ
  max_price : Option ℚ
  page : Option ℕ
  page_size : Option ℕ
  deriving Repr

/-- One list entry of a product search response. -/
structure ProductListItem where
  id : String
  name : String
  slug : String
  short_description : Option String
  price : ℚ
  sku : String
  stock_quantity : ℤ
  is_featured : Bool
  rating_average : ℚ
  rating_count : ℤ
  is_in_stock : Bool
  main_image_url : Option String
  category_name : String
  deriving Repr

/-- The pagination envelope of the search response, with the facet map. -/
structure ProductSearchResp where
  products : List ProductListItem
  total_count : ℕ
  page : ℕ
  page_size : ℕ
  total_pages : ℕ
  facets : List (String × List (String × ℕ))
  deriving Repr

/-- Embeds `SearchService.search_products`: parameters are read with
`dict.get` defaults (page 1, page size 20, empty query); the engine is
consulted and, on success, hits are shaped into list entries, the two
aggregations into the facet map, and the total into a ceiling-divided page
count; on any engine failure the service degrades to the empty result set
carrying the requested page and page size. -/
def search_products (params : SearchParams) (engine : EngineOutcome) : ProductSearchResp :=
  let page := params.page.getD 1
  let page_size := params.page_size.getD 20
  match engine with
  | .failure _ =>
    { products := [], total_count := 0, page := page, page_size := page_size,
      total_pages := 0, facets := [] }
  | .ok r =>
    let products := r.hits.map (fun h =>
      { id := h.id, name := h.name, slug := h.slug.getD "",
        short_description := h.short_description, price := h.price, sku := h.sku,
        stock_quantity := h.stock_quantity, is_featured := h.is_featured,
        rating_average := h.rating_average, rating_count := h.rating_count,
        is_in_stock := decide (0 < h.stock_quantity), main_image_url := none,
        category_name := h.category_name })
    let facets :=
      [("categories", r.category_buckets),
       ("price_ranges", r.price_range_buckets.map (fun b => (b.1 ++ "-" ++ b.2.1, b.2.2)))]
    let total_count := r.total
    let total_pages := (total_count + page_size - 1) / page_size
    { products := products, total_count := total_count, page := page,
      page_size := page_size, total_pages := total_pages, facets := facets }

/-! ## Review display name (`app/api/products.py`) -/

/-- Python string subscripting `s[i]`: the character, or an `IndexError`
modelled as `none`. -/
def py_str_index (s : String) (i : ℕ) : Option Char :=
  s.data.get? i

/-- Embeds the reviewer display-name interpolation
`f"{first_name} {last_name[0]}."` used by both the review listing and the
review creation response; `none` is the `IndexError` raised when the last
name is empty. -/
def review_user_name (first_name last_name : String) : Option String :=
  match py_str_index last_name 0 with
  | none => none
  | some c => some (first_name ++ " " ++ String.mk [c] ++ ".")

/-! ## Sample data used by witnesses -/

/-- A concrete configuration for witness instantiations. -/
def sample_config : AuthConfig :=
  { secret_key := "test-secret-key-0123456789abcdef", access_token_expire_minutes := 30,
    refresh_token_expire_days := 7 }

/-- A concrete active product for witness instantiations. -/
def sample_product : ProductRow :=
  { id := "p1", name := "Test Product", slug := "test-product",
    description := some "A test product", short_description := none,
    category_id := "c1", price := 2999/100, cost_price := none, sku := "TEST-001",
    stock_quantity := 10, weight := none, dimensions := none, is_active := true,
    is_featured := false, is_digital := false, meta_title := none,
    meta_description := none, view_count := 0, rating_average := 0,
    rating_count := 0, created_at := 0, updated_at := 0 }

/-- The sample product after the admin soft delete at instant 99. -/
def sample_product_deleted : ProductRow :=
  { sample_product with is_active := false, updated_at := 99 }

/-- Catalog before the witness review: one active product and one approved
rating of 4 by another user. -/
def c6_before : CatalogState :=
  { products :=
      [{ id := "p1", name := "Test Product", slug := "test-product",
         description := none, short_description := none, category_id := "c1",
         price := 2999/100, cost_price := none, sku := "TEST-001",
         stock_quantity := 10, weight := none, dimensions := none,
         is_active := true, is_featured := false, is_digital := false,
         meta_title := none, meta_description := none, view_count := 0,
         rating_average := 4, rating_count := 1, created_at := 0, updated_at := 0 }],
    reviews :=
      [{ id := "r1", product_id := "p1", user_id := "u1", rating := 4,
         title := none, comment := none, is_verified_purchase := false,
         is_approved := true }] }

/-- Catalog after the witness review (the handler's own result). -/
def c6_after : CatalogState :=
  match create_product_review c6_before "p1" "u2" "r2" 5 none none with
  | .ok st => st
  | .error _ => c6_before

/-- Create payloads for the address-invariant witness: two default-flagged
addresses created in sequence. -/
def sample_addr_create1 : AddressCreatePayload :=
  { street := "1 First St", city := "Lagos", state := "LA", country := "NG",
    postal_code := "100001", is_default := true }

/-- Second default-flagged create payload for the address-invariant
witness. -/
def sample_addr_create2 : AddressCreatePayload :=
  { street := "2 Second St", city := "Lagos", state := "LA", country := "NG",
    postal_code := "100002", is_default := true }

/-! ## Theorems -/

/-- Helper: token purposes write distinct `type` claims. -/
theorem TokenPurpose.claim_inj (p1 p2 : TokenPurpose) (h : p1.claim = p2.claim) : p1 = p2 := by
  cases p1 <;> cases p2 <;> simp_all [TokenPurpose.claim]

/-- Helper: verification of a signed token yields no payload whenever the
key mismatches, the token is expired, or the `type` claim mismatches. -/
theorem verify_token_none_of_signed (cfg : AuthConfig) (payload : JwtPayload) (key : String)
    (ty : String) (now : ℤ)
    (h : key ≠ cfg.secret_key ∨ payload.exp ≤ now ∨ payload.type ≠ ty) :
    AuthService.verify_token cfg (.signed payload key) ty now = none := by
  by_cases hk : key = cfg.secret_key ∧ now < payload.exp
  · have hty : payload.type ≠ ty := by
      rcases h with h | h | h
      · exact absurd hk.1 h
      · exact absurd hk.2 (not_lt.mpr h)
      · exact h
    simp [AuthService.verify_token, jwt_decode, hk, hty]
  · simp [AuthService.verify_token, jwt_decode, hk]

/-- Helper: a token minted for a purpose carries that purpose's `type`
claim and the configured secret key. -/
theorem mint_token_shape (cfg : AuthConfig) (purpose : TokenPurpose) (data : TokenData)
    (email : String) (now : ℤ) :
    ∃ payload, mint_token cfg purpose data email now = .signed payload cfg.secret_key ∧
      payload.type = purpose.claim := by
  cases purpose <;>
    exact ⟨_, rfl, rfl⟩

/-- Claim C4: a token minted for one purpose verifies to no payload when
checked as any distinct purpose; and for every input token, verification
yields no payload on a malformed token, a signature (key) mismatch, an
expiry in the past, or a `type` mismatch — the embedded `verify_token` is
a total function into `Option`, so it never raises to the caller. -/
theorem c4_token_verification (cfg : AuthConfig) (p1 p2 : TokenPurpose)
    (data : TokenData) (email : String) (minted verified : ℤ)
    (hne : p1 ≠ p2) :
    AuthService.verify_token cfg (mint_token cfg p1 data email minted) p2.claim verified
      = none ∧
    (∀ raw ty now, AuthService.verify_token cfg (.malformed raw) ty now = none) ∧
    (∀ payload key ty now,
      key ≠ cfg.secret_key ∨ payload.exp ≤ now ∨ payload.type ≠ ty →
      AuthService.verify_token cfg (.signed payload key) ty now = none) := by
  refine ⟨?_, fun raw ty now => rfl, fun payload key ty now h =>
    verify_token_none_of_signed cfg payload key ty now h⟩
  obtain ⟨payload, hmint, hty⟩ := mint_token_shape cfg p1 data email minted
  rw [hmint]
  refine verify_token_none_of_signed cfg payload cfg.secret_key p2.claim verified ?_
  refine Or.inr (Or.inr ?_)
  rw [hty]
  exact fun hcl => hne (TokenPurpose.claim_inj p1 p2 hcl)

/-- Claim C4, witness: an access token checked as a refresh token verifies
to no payload. -/
theorem c4_token_verification_witness :
    TokenPurpose.access ≠ TokenPurpose.refresh ∧
    AuthService.verify_token sample_config
      (mint_token sample_config .access
        { sub := some "jane@example.com", user_id := some "u1" } "jane@example.com" 0)
      TokenPurpose.refresh.claim 10 = none :=
  ⟨by decide,
   (c4_token_verification sample_config .access .refresh
      { sub := some "jane@example.com", user_id := some "u1" } "jane@example.com" 0 10
      (by decide)).1⟩

/-- Claim C3, counterexample: with the weight absent and distance
`"standard"` the helper returns flat 5.99 — the early return skips the
distance multiplier — whereas the claim requires 5.99 × 1.2. -/
theorem c3_counterexample :
    calculate_shipping none "standard" = 599/100 ∧
    (599 : ℚ)/100 ≠ (599/100) * (12/10) := by
  exact ⟨rfl, by norm_num⟩

/-- Claim C3 (amended): for every weight and each of the four distance
categories the helper computes (5.99 + weight band cost) × the category's
multiplier with the stated bands; an absent weight yields flat 5.99
regardless of the distance category. -/
theorem c3_shipping_amended (w : Option ℚ) (d : String) (m : ℚ)
    (hd : (d, m) ∈ distance_multipliers) :
    calculate_shipping w d = shipping_spec w m := by
  simp only [distance_multipliers, List.mem_cons, List.not_mem_nil, or_false,
    Prod.mk.injEq] at hd
  rcases w with _ | w
  · rcases hd with ⟨rfl, rfl⟩ | ⟨rfl, rfl⟩ | ⟨rfl, rfl⟩ | ⟨rfl, rfl⟩ <;> rfl
  · rcases hd with ⟨rfl, rfl⟩ | ⟨rfl, rfl⟩ | ⟨rfl, rfl⟩ | ⟨rfl, rfl⟩ <;>
      simp [calculate_shipping, shipping_spec]

/-- Claim C3, witness: weight 3 at distance `"standard"` follows the
amended formula, giving (5.99 + 2.99) × 1.2. -/
theorem c3_shipping_amended_witness :
    ("standard", (12 : ℚ)/10) ∈ distance_multipliers ∧
    calculate_shipping (some 3) "standard" = shipping_spec (some 3) (12/10) :=
  ⟨by simp [distance_multipliers],
   c3_shipping_amended (some 3) "standard" (12/10) (by simp [distance_multipliers])⟩

/-- Claim C1 (code-bug evidence): for a request carrying no bearer
credential the dependency chain of `get_optional_current_user` raises
HTTP 403 from `HTTPBearer` (whose `auto_error` defaults to true) before
the optional resolver's `return None` branch can run — the repository's
own tests fetch a product with no `Authorization` header and expect
success; by contrast a present-but-unresolvable bearer credential does
resolve to no user without a fault. -/
theorem c1_optional_user_missing_credential (cfg : AuthConfig) (db : List UserRow)
    (now : ℤ) (raw : String) :
    get_optional_current_user cfg db none now = .error (.http 403 "Not authenticated") ∧
    get_optional_current_user cfg db
      (some { scheme := "Bearer", credentials := .malformed raw }) now = .ok none := by
  refine ⟨rfl, ?_⟩
  have hb : httpBearer true (some { scheme := "Bearer", credentials := .malformed raw }) =
      .ok (some { scheme := "Bearer", credentials := .malformed raw }) := by
    simp [httpBearer, ascii_lower]
  simp [get_optional_current_user, hb, AuthService.get_current_user,
    AuthService.verify_token, jwt_decode]

/-- Claim C2 (code-bug evidence): when no active product matches the
filters, the listing's `scalar() or 1` turns the count 0 into 1, so the
response reports `total_count = 1` and `total_pages = 1` over an empty
product list, instead of 0 and 0. -/
theorem c2_empty_listing_count :
    get_products_matching [] no_filters = [] ∧
    get_products_total_count [] no_filters = 1 ∧
    get_products_total_pages [] no_filters 20 = 1 := by
  exact ⟨rfl, rfl, rfl⟩

/-- Claim C8: the forgot-password response observable to the client
(status code and body) is one constant, independent of the database
contents and the supplied email — in particular identical whether or not
the email belongs to an existing active user. -/
theorem c8_forgot_password_uniform_response (cfg : AuthConfig)
    (db1 db2 : List UserRow) (email1 email2 : String) (now1 now2 : ℤ) :
    (forgot_password cfg db1 email1 now1).1 = (forgot_password cfg db2 email2 now2).1 := rfl

/-- Claim C9: on any engine failure the search service returns the
well-formed empty response — no products, zero total, zero pages, empty
facets — carrying through the requested page and page size, and (being a
total function into the response type) never propagates the failure. -/
theorem c9_search_degrades_to_empty (params : SearchParams) (msg : String) :
    search_products params (.failure msg) =
      { products := [], total_count := 0, page := params.page.getD 1,
        page_size := params.page_size.getD 20, total_pages := 0, facets := [] } := rfl

/-- Claim C10: whenever the reviewer's last name is non-empty, the display
name computation is total and yields the first name, a space, the first
character of the last name, and a period. -/
theorem c10_review_user_name_total (first_name last_name : String)
    (h : last_name ≠ "") :
    review_user_name first_name last_name =
      some (first_name ++ " " ++ String.mk (last_name.data.take 1) ++ ".") := by
  have hd : last_name.data ≠ [] := by
    intro hnil
    apply h
    cases last_name with
    | mk data => cases data with
      | nil => rfl
      | cons c cs => simp at hnil
  unfold review_user_name py_str_index
  cases hld : last_name.data with
  | nil => exact absurd hld hd
  | cons c cs => simp [hld]

/-- Claim C10, witness: reviewer Jane Doe is displayed as "Jane D.". -/
theorem c10_review_user_name_witness :
    "Doe" ≠ "" ∧ review_user_name "Jane" "Doe" = some "Jane D." :=
  ⟨by decide, by rw [c10_review_user_name_total "Jane" "Doe" (by decide)]; rfl⟩

/-- Helper: mutating the first matching row relates the table pointwise to
its predecessor under any relation that is reflexive and holds across the
mutation of a matching row. -/
theorem update_first_forall₂ {α : Type} (R : α → α → Prop) (db : List α)
    (q : α → Bool) (f : α → α)
    (hrefl : ∀ a, R a a) (hf : ∀ a, q a = true → R a (f a)) :
    List.Forall₂ R db (update_first db q f) := by
  induction db with
  | nil => exact List.Forall₂.nil
  | cons a rest ih =>
    unfold update_first
    by_cases hq : q a = true
    · rw [if_pos hq]
      exact List.Forall₂.cons (hf a hq) (List.forall₂_same.mpr (fun b _ => hrefl b))
    · rw [if_neg hq]
      exact List.Forall₂.cons (hrefl a) ih

/-- Helper: after a key-preserving first-match update on a table with
unique keys, every row carrying the matched key satisfies what the
mutation establishes. -/
theorem update_first_key_prop {α : Type} (key : α → String) (x : String) (f : α → α)
    (P : α → Prop) (l : List α)
    (hnodup : (l.map key).Nodup) (hP : ∀ a, key a = x → P (f a)) :
    ∀ b ∈ update_first l (fun a => key a = x) f, key b = x → P b := by
  induction l with
  | nil => intro b hb; simp [update_first] at hb
  | cons a rest ih =>
    rw [List.map_cons, List.nodup_cons] at hnodup
    intro b hb hbx
    unfold update_first at hb
    by_cases hax : key a = x
    · rw [if_pos (by simp [hax])] at hb
      rcases List.mem_cons.mp hb with rfl | hb
      · exact hP a hax
      · exact absurd (List.mem_map.mpr ⟨b, hb, by rw [hbx, hax]⟩) hnodup.1
    · rw [if_neg (by simp [hax])] at hb
      rcases List.mem_cons.mp hb with rfl | hb
      · exact absurd hbx hax
      · exact ih hnodup.2 b hb hbx

/-- Helper: a first-match update whose mutation preserves the key leaves
the key column unchanged. -/
theorem update_first_map_key {α : Type} (key : α → String) (q : α → Bool) (f : α → α)
    (l : List α) (hf : ∀ a, key (f a) = key a) :
    (update_first l q f).map key = l.map key := by
  induction l with
  | nil => rfl
  | cons a rest ih =>
    unfold update_first
    by_cases hq : q a = true
    · rw [if_pos hq]
      simp [hf]
    · rw [if_neg hq]
      simp [ih]

/-- Helper: a first-match update cannot increase the count of a property
its mutation never introduces on a matching row. -/
theorem countP_update_first_le {α : Type} (p q : α → Bool) (f : α → α) (l : List α)
    (hf : ∀ a, q a = true → p (f a) = true → p a = true) :
    (update_first l q f).countP p ≤ l.countP p := by
  induction l with
  | nil => simp [update_first]
  | cons a rest ih =>
    unfold update_first
    by_cases hq : q a = true
    · rw [if_pos hq, List.countP_cons, List.countP_cons]
      refine Nat.add_le_add (le_refl _) ?_
      by_cases hpf : p (f a) = true
      · simp [hpf, hf a hq hpf]
      · simp [hpf]
    · rw [if_neg hq, List.countP_cons, List.countP_cons]
      exact Nat.add_le_add ih (le_refl _)

/-- Helper: a property holding on every row and established by the
mutation on every matching row holds on every row after a first-match
update. -/
theorem update_first_mem_prop {α : Type} (P : α → Prop) (q : α → Bool) (f : α → α)
    (l : List α) (hl : ∀ b ∈ l, P b) (hf : ∀ a ∈ l, q a = true → P (f a)) :
    ∀ b ∈ update_first l q f, P b := by
  induction l with
  | nil => intro b hb; simp [update_first] at hb
  | cons a rest ih =>
    intro b hb
    unfold update_first at hb
    by_cases hq : q a = true
    · rw [if_pos hq] at hb
      rcases List.mem_cons.mp hb with rfl | hb
      · exact hf a (List.mem_cons_self a rest) hq
      · exact hl b (List.mem_cons_of_mem a hb)
    · rw [if_neg hq] at hb
      rcases List.mem_cons.mp hb with rfl | hb
      · exact hl b (List.mem_cons_self b rest)
      · exact ih (fun c hc => hl c (List.mem_cons_of_mem a hc))
          (fun c hc hqc => hf c (List.mem_cons_of_mem a hc) hqc) b hb

/-- Helper: a single row contributes at most one to any count. -/
theorem countP_singleton_le_one {α : Type} (p : α → Bool) (x : α) :
    ([x] : List α).countP p ≤ 1 := by
  by_cases h : p x = true <;> simp [List.countP_cons, h]

/-- Helper: mapping an id-preserving mutation leaves the id column
unchanged. -/
theorem map_id_of_preserved (db : List AddressRow) (g : AddressRow → AddressRow)
    (hg : ∀ a, (g a).id = a.id) :
    (db.map g).map (fun a => a.id) = db.map (fun a => a.id) := by
  rw [List.map_map]
  exact List.map_congr_left (fun a _ => hg a)

/-- Helper: mapping a row mutation that never introduces a property cannot
increase its count. -/
theorem countP_map_le {α : Type} (p : α → Bool) (g : α → α) (l : List α)
    (hg : ∀ a, p (g a) = true → p a = true) :
    (l.map g).countP p ≤ l.countP p := by
  induction l with
  | nil => simp
  | cons a rest ih =>
    rw [List.map_cons, List.countP_cons, List.countP_cons]
    refine Nat.add_le_add ih ?_
    by_cases h : p (g a) = true
    · simp [h, hg a h]
    · simp [h]

/-- Helper: with unique keys, at most one row satisfies a property that
forces a fixed key value. -/
theorem countP_le_one_of_key {α : Type} (key : α → String) (x : String)
    (p : α → Bool) (l : List α)
    (hnodup : (l.map key).Nodup) (hkey : ∀ b ∈ l, p b = true → key b = x) :
    l.countP p ≤ 1 := by
  induction l with
  | nil => simp
  | cons a rest ih =>
    rw [List.map_cons, List.nodup_cons] at hnodup
    rw [List.countP_cons]
    by_cases hpa : p a = true
    · have hx : key a = x := hkey a (List.mem_cons_self a rest) hpa
      have hrest : rest.countP p = 0 := by
        rw [List.countP_eq_zero]
        intro b hb hpb
        have hbx : key b = x := hkey b (List.mem_cons_of_mem a hb) hpb
        exact hnodup.1 (List.mem_map.mpr ⟨b, hb, by rw [hbx, hx]⟩)
      simp [hrest, hpa]
    · rw [if_neg hpa]
      simpa using ih hnodup.2 (fun b hb hpb => hkey b (List.mem_cons_of_mem a hb) hpb)

/-- Claim C7: a successful admin delete on a table with unique product ids
replaces no row and removes none — every row keeps all its persisted
fields except the active flag and the automatic update timestamp, rows not
carrying the deleted id are untouched, every row carrying it ends up
inactive — and a subsequent customer-facing fetch of that id yields the
not-found fault. -/
theorem c7_soft_delete (db : List ProductRow) (pid : String) (now : ℤ)
    (db' : List ProductRow)
    (hnodup : (db.map (fun p => p.id)).Nodup)
    (h : delete_product db pid now = .ok db') :
    List.Forall₂ (fun p p' =>
      p' = { p with is_active := p'.is_active, updated_at := p'.updated_at } ∧
      (p.id ≠ pid → p' = p)) db db' ∧
    (∀ p' ∈ db', p'.id = pid → p'.is_active = false) ∧
    get_product db' pid = .error (.notFound "Product not found") := by
  unfold delete_product at h
  split at h
  · exact absurd h (by simp)
  · injection h with h
    subst h
    have h2 : ∀ p' ∈ update_first db (fun p => p.id = pid)
        (fun p => { p with is_active := false, updated_at := now }),
        p'.id = pid → p'.is_active = false := by
      exact update_first_key_prop (fun p => p.id) pid
        (fun p => { p with is_active := false, updated_at := now })
        (fun b => b.is_active = false) db hnodup (fun a _ => rfl)
    refine ⟨?_, h2, ?_⟩
    · exact update_first_forall₂ _ db _ _ (fun a => ⟨rfl, fun _ => rfl⟩)
        (fun a hq => ⟨rfl, fun hne => absurd (of_decide_eq_true hq) hne⟩)
    · have hfind : (update_first db (fun p => p.id = pid)
          (fun p => { p with is_active := false, updated_at := now })).find?
            (fun p => p.id = pid && p.is_active) = none := by
        rw [List.find?_eq_none]
        intro x hx hpx
        simp only [Bool.and_eq_true, decide_eq_true_eq] at hpx
        have hfalse := h2 x hx hpx.1
        rw [hfalse] at hpx
        exact Bool.false_ne_true hpx.2
      unfold get_product
      rw [hfind]

/-- Claim C6: after every successful review creation on a catalog whose
product ids are unique, the reviewed product row's persisted rating
average equals the arithmetic mean (sum over count) of the ratings of all
currently approved reviews of that product, and its rating count equals
their count. -/
theorem c6_review_recompute (st : CatalogState) (pid uid new_id : String) (rating : ℤ)
    (title comment : Option String) (st' : CatalogState)
    (hnodup : (st.products.map (fun p => p.id)).Nodup)
    (h : create_product_review st pid uid new_id rating title comment = .ok st') :
    ∀ q ∈ st'.products, q.id = pid →
      q.rating_average =
        ((approved_ratings st'.reviews pid).map (fun r => (r : ℚ))).sum /
          ((approved_ratings st'.reviews pid).length : ℚ) ∧
      q.rating_count = ((approved_ratings st'.reviews pid).length : ℤ) := by
  unfold create_product_review at h
  split at h
  · exact absurd h (by simp)
  split at h
  · exact absurd h (by simp)
  split at h
  · exact absurd h (by simp)
  injection h with h
  subst h
  intro q hq hqid
  exact update_first_key_prop (fun p => p.id) pid _
    (fun b =>
      b.rating_average =
        ((approved_ratings _ pid).map (fun r => (r : ℚ))).sum /
          ((approved_ratings _ pid).length : ℚ) ∧
      b.rating_count = ((approved_ratings _ pid).length : ℤ))
    st.products hnodup (fun a _ => ⟨rfl, rfl⟩) q hq hqid

/-- Claim C6, witness: adding an approved rating of 5 beside an approved 4
recomputes the product row to average 9/2 and count 2. -/
theorem c6_review_recompute_witness :
    create_product_review c6_before "p1" "u2" "r2" 5 none none = .ok c6_after ∧
    c6_after.products.head?.map (fun q => (q.rating_average, q.rating_count)) =
      some (9/2, 2) := by
  have h : create_product_review c6_before "p1" "u2" "r2" 5 none none = .ok c6_after := rfl
  refine ⟨h, ?_⟩
  have hmem : ∀ q ∈ c6_after.products, q.id = "p1" →
      q.rating_average =
        ((approved_ratings c6_after.reviews "p1").map (fun r => (r : ℚ))).sum /
          ((approved_ratings c6_after.reviews "p1").length : ℚ) ∧
      q.rating_count = ((approved_ratings c6_after.reviews "p1").length : ℤ) :=
    c6_review_recompute c6_before "p1" "u2" "r2" 5 none none c6_after (by simp [c6_before]) h
  cases hq : c6_after.products with
  | nil =>
    have hids : c6_after.products.map (fun p => p.id) = ["p1"] := rfl
    rw [hq] at hids
    simp at hids
  | cons q rest =>
    have hids : c6_after.products.map (fun p => p.id) = ["p1"] := rfl
    rw [hq] at hids
    simp only [List.map_cons] at hids
    injection hids with hqid hrest
    have hqmem : q ∈ c6_after.products := by rw [hq]; exact List.mem_cons_self q rest
    obtain ⟨h1, h2⟩ := hmem q hqmem hqid
    have hratings : approved_ratings c6_after.reviews "p1" = [4, 5] := rfl
    rw [hratings] at h1 h2
    simp only [List.head?_cons, Option.map_some']
    rw [h1, h2]
    norm_num

/-- Claim C7, witness: deleting the sample product keeps its row (only the
active flag and update timestamp change) and makes the customer-facing
fetch return not-found. -/
theorem c7_soft_delete_witness :
    delete_product [sample_product] "p1" 99 = .ok [sample_product_deleted] ∧
    get_product [sample_product_deleted] "p1" =
      .error (.notFound "Product not found") := by
  have h : delete_product [sample_product] "p1" 99 = .ok [sample_product_deleted] := rfl
  exact ⟨h, (c7_soft_delete [sample_product] "p1" 99 [sample_product_deleted]
    (by simp) h).2.2⟩

/-- Helper: flipping every default address of a user to false leaves the
user with zero default addresses. -/
theorem defaults_count_map_flip (db : List AddressRow) (uid : String) :
    defaults_count (db.map (fun a =>
      if a.user_id = uid && a.is_default then { a with is_default := false } else a)) uid
      = 0 := by
  unfold defaults_count
  rw [List.countP_eq_zero]
  intro b hb
  rw [List.mem_map] at hb
  obtain ⟨a, ha, rfl⟩ := hb
  by_cases hc : (a.user_id = uid && a.is_default) = true
  · rw [if_pos hc]
    simp
  · rw [if_neg hc]
    simpa using hc

/-- Helper: the unset pass touching only one user's rows never increases
any user's default count. -/
theorem defaults_count_map_flip_le (db : List AddressRow) (uid u : String) :
    defaults_count (db.map (fun a =>
      if a.user_id = uid && a.is_default then { a with is_default := false } else a)) u ≤
    defaults_count db u := by
  unfold defaults_count
  refine countP_map_le _ _ db ?_
  intro a ha
  by_cases hc : (a.user_id = uid && a.is_default) = true
  · rw [if_pos hc] at ha
    simp at ha
  · rwa [if_neg hc] at ha

/-- Helper: creating an address preserves the one-default-per-user
invariant for every user. -/
theorem create_address_preserves_default (db : List AddressRow) (uid new_id : String)
    (data : AddressCreatePayload) (u : String)
    (hinv : at_most_one_default db u) :
    at_most_one_default (create_address db uid new_id data) u := by
  unfold at_most_one_default defaults_count at hinv ⊢
  unfold create_address
  rw [List.countP_append]
  by_cases hdef : data.is_default = true
  · rw [if_pos hdef]
    by_cases huid : uid = u
    · rw [← huid]
      have h0 := defaults_count_map_flip db uid
      unfold defaults_count at h0
      rw [h0, Nat.zero_add]
      exact countP_singleton_le_one _ _
    · have hle := defaults_count_map_flip_le db uid u
      unfold defaults_count at hle
      have hnew : List.countP (fun a => a.user_id = u && a.is_default)
          [({ id := new_id, user_id := uid, street := data.street, city := data.city,
              state := data.state, country := data.country,
              postal_code := data.postal_code, is_default := data.is_default } :
            AddressRow)] = 0 := by
        simp [List.countP_cons, huid]
      rw [hnew, Nat.add_zero]
      exact le_trans hle hinv
  · rw [if_neg hdef]
    have hfalse : data.is_default = false := Bool.eq_false_iff.mpr hdef
    have hnew : List.countP (fun a => a.user_id = u && a.is_default)
        [({ id := new_id, user_id := uid, street := data.street, city := data.city,
            state := data.state, country := data.country,
            postal_code := data.postal_code, is_default := data.is_default } :
          AddressRow)] = 0 := by
      simp [List.countP_cons, hfalse]
    rw [hnew, Nat.add_zero]
    exact hinv

/-- Helper: the update route's unset pass never increases any user's
default count. -/
theorem defaults_count_map_flip_except_le (db : List AddressRow) (uid aid u : String) :
    defaults_count (db.map (fun a =>
      if a.user_id = uid && a.is_default && a.id ≠ aid then
        { a with is_default := false } else a)) u ≤
    defaults_count db u := by
  unfold defaults_count
  refine countP_map_le _ _ db ?_
  intro a ha
  by_cases hc : (a.user_id = uid && a.is_default && decide (a.id ≠ aid)) = true
  · rw [if_pos hc] at ha
    simp at ha
  · rwa [if_neg hc] at ha

/-- Helper: after the update route's unset pass, every default address of
the acting user carries the updated address id. -/
theorem map_flip_except_key (db : List AddressRow) (uid aid : String) :
    ∀ b ∈ db.map (fun a =>
      if a.user_id = uid && a.is_default && a.id ≠ aid then
        { a with is_default := false } else a),
      (b.user_id = uid && b.is_default) = true → b.id = aid := by
  intro b hb hpred
  rw [List.mem_map] at hb
  obtain ⟨a, ha, rfl⟩ := hb
  by_cases hc : (a.user_id = uid && a.is_default && decide (a.id ≠ aid)) = true
  · rw [if_pos hc] at hpred
    simp at hpred
  · rw [if_neg hc] at hpred ⊢
    simp only [Bool.and_eq_true, decide_eq_true_eq] at hpred hc
    by_contra hne
    exact hc ⟨⟨hpred.1, hpred.2⟩, hne⟩

/-- Helper: updating an address preserves the one-default-per-user
invariant for every user on a table with unique address ids. -/
theorem update_address_preserves_default (db : List AddressRow) (uid aid : String)
    (d : AddressUpdatePayload) (u : String)
    (hids : wf_ids db) (hinv : at_most_one_default db u) :
    at_most_one_default (update_address db uid aid d) u := by
  unfold update_address
  split
  · exact hinv
  by_cases hD : d.is_default = some true
  · rw [if_pos hD]
    by_cases huid : u = uid
    · subst huid
      unfold at_most_one_default defaults_count
      refine countP_le_one_of_key (fun a => a.id) aid _ _ ?_ ?_
      · rw [update_first_map_key (fun a => a.id)
          (fun a => a.id = aid && a.user_id = u)
          (fun a => apply_address_update a d) _
          (fun a => (rfl : (apply_address_update a d).id = a.id))]
        rw [map_id_of_preserved db
          (fun a => if a.user_id = u && a.is_default && a.id ≠ aid then
              { a with is_default := false } else a)
          (fun a => by
            show (if (a.user_id = u && a.is_default && a.id ≠ aid) = true then
                ({ a with is_default := false } : AddressRow) else a).id = a.id
            by_cases hc : (a.user_id = u && a.is_default && decide (a.id ≠ aid)) = true
            · rw [if_pos hc]
            · rw [if_neg hc])]
        exact hids
      · refine update_first_mem_prop
          (fun b => (b.user_id = u && b.is_default) = true → b.id = aid)
          (fun a => a.id = aid && a.user_id = u)
          (fun a => apply_address_update a d) _
          (map_flip_except_key db u aid) ?_
        intro a ha hq hpred
        simp only [Bool.and_eq_true, decide_eq_true_eq] at hq
        exact hq.1
    · unfold at_most_one_default defaults_count
      refine le_trans (countP_update_first_le _ _ _ _ ?_) ?_
      · intro a hq hpred
        simp only [Bool.and_eq_true, decide_eq_true_eq] at hq hpred
        exfalso
        apply huid
        have huser : (apply_address_update a d).user_id = a.user_id := rfl
        have hpu : a.user_id = u := huser ▸ hpred.1
        rw [hq.2] at hpu
        exact hpu.symm
      · have hle := defaults_count_map_flip_except_le db uid aid u
        unfold defaults_count at hle
        exact le_trans hle hinv
  · rw [if_neg hD]
    unfold at_most_one_default defaults_count at hinv ⊢
    refine le_trans (countP_update_first_le _ _ _ _ ?_) hinv
    intro a hq hpred
    simp only [Bool.and_eq_true, decide_eq_true_eq] at hpred
    simp only [Bool.and_eq_true, decide_eq_true_eq]
    have huser : (apply_address_update a d).user_id = a.user_id := rfl
    have hdefault : (apply_address_update a d).is_default =
      d.is_default.getD a.is_default := rfl
    rw [huser, hdefault] at hpred
    refine ⟨hpred.1, ?_⟩
    cases hdi : d.is_default with
    | none => simpa [hdi] using hpred.2
    | some b =>
      cases b with
      | false => rw [hdi] at hpred; simp at hpred
      | true => exact absurd hdi hD

/-- Helper: a single address operation preserves the one-default-per-user
invariant for every user (uniqueness of ids is needed for updates). -/
theorem apply_address_op_preserves (db : List AddressRow) (op : AddressOp) (u : String)
    (hids : wf_ids db) (hinv : at_most_one_default db u) :
    at_most_one_default (apply_address_op db op) u := by
  cases op with
  | create uid new_id data => exact create_address_preserves_default db uid new_id data u hinv
  | update uid aid d => exact update_address_preserves_default db uid aid d u hids hinv

/-- Helper: a single well-formed address operation preserves uniqueness of
ids. -/
theorem apply_address_op_wf_ids (db : List AddressRow) (op : AddressOp)
    (hids : wf_ids db)
    (hfresh : match op with
      | .create _ new_id _ => new_id ∉ db.map (fun a => a.id)
      | .update _ _ _ => True) :
    wf_ids (apply_address_op db op) := by
  cases op with
  | create uid new_id data =>
    show wf_ids (create_address db uid new_id data)
    unfold create_address wf_ids
    rw [List.map_append]
    have hids' : ((if data.is_default = true then
        db.map (fun a =>
          if a.user_id = uid && a.is_default then { a with is_default := false } else a)
      else db).map (fun a => a.id)) = db.map (fun a => a.id) := by
      by_cases hdef : data.is_default = true
      · rw [if_pos hdef]
        refine map_id_of_preserved db _ (fun a => ?_)
        show (if (a.user_id = uid && a.is_default) = true then
            ({ a with is_default := false } : AddressRow) else a).id = a.id
        by_cases hc : (a.user_id = uid && a.is_default) = true
        · rw [if_pos hc]
        · rw [if_neg hc]
      · rw [if_neg hdef]
    rw [hids']
    simp only [List.map_cons, List.map_nil]
    rw [List.nodup_append]
    exact ⟨hids, List.nodup_singleton _, by
      intro x hx hy
      simp only [List.mem_singleton] at hy
      subst hy
      exact hfresh hx⟩
  | update uid aid d =>
    show wf_ids (update_address db uid aid d)
    unfold update_address
    split
    · exact hids
    by_cases hD : d.is_default = some true
    · rw [if_pos hD]
      unfold wf_ids
      rw [update_first_map_key (fun a => a.id)
        (fun a => a.id = aid && a.user_id = uid)
        (fun a => apply_address_update a d) _
        (fun a => (rfl : (apply_address_update a d).id = a.id))]
      rw [map_id_of_preserved db
        (fun a => if a.user_id = uid && a.is_default && a.id ≠ aid then
            { a with is_default := false } else a)
        (fun a => by
          show (if (a.user_id = uid && a.is_default && a.id ≠ aid) = true then
              ({ a with is_default := false } : AddressRow) else a).id = a.id
          by_cases hc : (a.user_id = uid && a.is_default && decide (a.id ≠ aid)) = true
          · rw [if_pos hc]
          · rw [if_neg hc])]
      exact hids
    · rw [if_neg hD]
      unfold wf_ids
      rw [update_first_map_key (fun a => a.id)
        (fun a => a.id = aid && a.user_id = uid)
        (fun a => apply_address_update a d) _
        (fun a => (rfl : (apply_address_update a d).id = a.id))]
      exact hids

/-- Claim C5: starting from any address table with unique ids in which a
user has at most one default address, every well-formed sequence of
address create/update operations — by any mix of users — leaves that user
with at most one default address; in particular the invariant holds after
each operation of the sequence, since every prefix is itself a well-formed
sequence. -/
theorem c5_default_invariant (db : List AddressRow) (ops : List AddressOp) (u : String)
    (hids : wf_ids db) (hinv : at_most_one_default db u)
    (hwf : address_ops_wf db ops) :
    at_most_one_default (ops.foldl apply_address_op db) u := by
  induction ops generalizing db with
  | nil => exact hinv
  | cons op rest ih =>
    rw [List.foldl_cons]
    unfold address_ops_wf at hwf
    exact ih (apply_address_op db op)
      (apply_address_op_wf_ids db op hids hwf.1)
      (apply_address_op_preserves db op u hids hinv)
      hwf.2

/-- Claim C5, witness: from an empty table, creating two default-flagged
addresses in sequence for the same user leaves that user with at most one
default address. -/
theorem c5_default_invariant_witness :
    wf_ids ([] : List AddressRow) ∧
    at_most_one_default [] "u1" ∧
    address_ops_wf []
      [AddressOp.create "u1" "a1" sample_addr_create1,
       AddressOp.create "u1" "a2" sample_addr_create2] ∧
    at_most_one_default
      (List.foldl apply_address_op []
        [AddressOp.create "u1" "a1" sample_addr_create1,
         AddressOp.create "u1" "a2" sample_addr_create2]) "u1" := by
  have hids : wf_ids ([] : List AddressRow) := by simp [wf_ids]
  have hinv : at_most_one_default [] "u1" := by
    simp [at_most_one_default, defaults_count]
  have hwf : address_ops_wf []
      [AddressOp.create "u1" "a1" sample_addr_create1,
       AddressOp.create "u1" "a2" sample_addr_create2] := by
    refine ⟨by simp, ?_, trivial⟩
    simp [apply_address_op, create_address, sample_addr_create1]
  exact ⟨hids, hinv, hwf,
    c5_default_invariant [] _ "u1" hids hinv hwf⟩

end MarketPulse
